import Mathlib

/-!
Verification development for the wlroots buffer lifecycle engine
(src/types/wlr_buffer.c) and the GLES2 texture import pipeline
(src/render/gles2/texture.c).

The C code is embedded shallowly: each C function becomes a Lean
function on an explicit state record.  A C assert that fails is
modelled as the value none (a precondition violation aborts the
operation); observable side effects (signal emissions, the backend
destroy call, GL calls, wl_buffer release messages) are modelled as
explicit event lists returned alongside the new state.
-/

namespace WlrBuffer

/-- Observable effects of the buffer core:
  destroyEv = emission of the destroy signal,
  releaseEv = emission of the release signal,
  freeEv    = the backend impl destroy call, which frees the object. -/
inductive Event where
  | destroyEv : Event
  | releaseEv : Event
  | freeEv : Event
deriving DecidableEq, Repr

/-- State of a struct wlr_buffer.  The field destroyed records that
impl destroy has run (the memory is freed); in C no further calls on
the buffer are legal after that point. -/
structure Buffer where
  width : Nat
  height : Nat
  n_locks : Nat
  dropped : Bool
  accessing_data_ptr : Bool
  destroyed : Bool
deriving DecidableEq, Repr

/-- wlr_buffer_init: a freshly initialised buffer (creators calloc the
struct, so every mutable field starts zeroed). -/
def wlr_buffer_init (width height : Nat) : Buffer :=
  { width := width, height := height, n_locks := 0, dropped := false,
    accessing_data_ptr := false, destroyed := false }

/-- buffer_consider_destroy: proceeds only if dropped and no locks
remain; asserts that no scoped data access is in progress; emits the
destroy signal, then calls the backend destroy (freeEv), in that
order. -/
def buffer_consider_destroy (b : Buffer) : Option (Buffer × List Event) :=
  if b.dropped = false ∨ 0 < b.n_locks then
    some (b, [])
  else if b.accessing_data_ptr = true then
    none
  else
    some ({ b with destroyed := true }, [Event.destroyEv, Event.freeEv])

/-- wlr_buffer_drop (non-null handle): asserts the buffer was not
already dropped, marks it dropped, then attempts destruction. -/
def wlr_buffer_drop (b : Buffer) : Option (Buffer × List Event) :=
  if b.dropped = true then none
  else buffer_consider_destroy { b with dropped := true }

/-- wlr_buffer_lock: increments the lock count and returns the same
handle. -/
def wlr_buffer_lock (b : Buffer) : Buffer :=
  { b with n_locks := b.n_locks + 1 }

/-- wlr_buffer_unlock (non-null handle): asserts n_locks > 0,
decrements it, emits the release signal if the count reached zero,
then attempts destruction. -/
def wlr_buffer_unlock (b : Buffer) : Option (Buffer × List Event) :=
  if b.n_locks = 0 then none
  else
    (buffer_consider_destroy { b with n_locks := b.n_locks - 1 }).map
      (fun p => (p.1,
        (if b.n_locks - 1 = 0 then [Event.releaseEv] else []) ++ p.2))

/-- wlr_buffer_drop on a nullable handle: the C function returns
immediately when the pointer is NULL. -/
def wlr_buffer_drop_opt : Option Buffer → Option (Option Buffer × List Event)
  | none => some (none, [])
  | some b => (wlr_buffer_drop b).map (fun p => (some p.1, p.2))

/-- wlr_buffer_unlock on a nullable handle: the C function returns
immediately when the pointer is NULL. -/
def wlr_buffer_unlock_opt : Option Buffer → Option (Option Buffer × List Event)
  | none => some (none, [])
  | some b => (wlr_buffer_unlock b).map (fun p => (some p.1, p.2))

/-- buffer_begin_data_ptr_access: asserts no access is in progress;
the backend begin callback may be missing or may fail (both collapsed
into implOk = false), in which case the wrapper returns false and the
flag stays clear; on success the flag is set. -/
def buffer_begin_data_ptr_access (b : Buffer) (implOk : Bool) :
    Option (Buffer × Bool) :=
  if b.accessing_data_ptr = true then none
  else if implOk = true then some ({ b with accessing_data_ptr := true }, true)
  else some (b, false)

/-- buffer_end_data_ptr_access: asserts an access is in progress and
clears the flag. -/
def buffer_end_data_ptr_access (b : Buffer) : Option Buffer :=
  if b.accessing_data_ptr = true then some { b with accessing_data_ptr := false }
  else none

/-- A client visible operation on one buffer. -/
inductive Op where
  | lock : Op
  | unlock : Op
  | drop : Op
  | beginAccess (implOk : Bool) : Op
  | endAccess : Op
deriving DecidableEq, Repr

/-- One operation applied to a buffer.  Operating on freed memory is
itself a violation, hence the destroyed guard. -/
def stepOp (b : Buffer) (op : Op) : Option (Buffer × List Event) :=
  if b.destroyed = true then none
  else
    match op with
    | Op.lock => some (wlr_buffer_lock b, [])
    | Op.unlock => wlr_buffer_unlock b
    | Op.drop => wlr_buffer_drop b
    | Op.beginAccess implOk =>
        (buffer_begin_data_ptr_access b implOk).map (fun p => (p.1, []))
    | Op.endAccess =>
        (buffer_end_data_ptr_access b).map (fun b2 => (b2, []))

/-- Run a sequence of operations, accumulating the emitted events;
fails if any single operation violates a precondition. -/
def run (b : Buffer) : List Op → Option (Buffer × List Event)
  | [] => some (b, [])
  | op :: ops =>
    (stepOp b op).bind fun p =>
      (run p.1 ops).map fun q => (q.1, p.2 ++ q.2)

end WlrBuffer

namespace WlrBuffer

/-- A flat byte heap: the address of an allocated block is its index,
a freed block is none.  Used to model the caller owned memory of a
wlr_readonly_data_buffer and the owned copy made on drop. -/
abbrev Heap := List (Option (List Nat))

/-- Reading through a pointer: yields the live block at that address. -/
def heapRead (h : Heap) (a : Nat) : Option (List Nat) :=
  h[a]?.bind id

/-- free: the block at the address becomes dead. -/
def heapFree (h : Heap) (a : Nat) : Heap :=
  h.set a none

/-- struct wlr_readonly_data_buffer: base buffer, the caller data
pointer (none once poisoned), format, stride, and the owned copy made
by drop while locked (saved_data). -/
structure ROBuffer where
  base : Buffer
  data : Option Nat
  format : Nat
  stride : Nat
  saved_data : Option Nat
deriving DecidableEq, Repr

/-- readonly_data_buffer_create (successful allocation path): wraps a
caller owned block, with no owned copy yet. -/
def readonly_data_buffer_create (format stride width height : Nat)
    (dataAddr : Nat) : ROBuffer :=
  { base := wlr_buffer_init width height,
    data := some dataAddr, format := format, stride := stride,
    saved_data := none }

/-- readonly_data_buffer_begin_data_ptr_access impl callback: fails if
data was poisoned, else returns pointer, format and stride. -/
def readonly_data_buffer_begin_data_ptr_access (b : ROBuffer) :
    Option (Nat × Nat × Nat) :=
  match b.data with
  | none => none
  | some a => some (a, b.format, b.stride)

/-- buffer_begin_data_ptr_access specialised to the read-only data
backend: asserts no access is in progress, then runs the impl
callback; on impl failure the wrapper returns false (modelled none in
the result component) and the flag stays clear. -/
def ro_begin_data_ptr_access (b : ROBuffer) :
    Option (ROBuffer × Option (Nat × Nat × Nat)) :=
  if b.base.accessing_data_ptr = true then none
  else
    match readonly_data_buffer_begin_data_ptr_access b with
    | none => some (b, none)
    | some r =>
        some ({ b with base := { b.base with accessing_data_ptr := true } },
          some r)

/-- The save step of readonly_data_buffer_drop: if the buffer is still
locked, copy stride * height bytes of the caller block into a freshly
allocated owned block and repoint data (and saved_data) at the copy;
on allocation failure (allocOk = false) poison data and report
failure.  Copying through a dangling pointer or past the end of the
source block is undefined behaviour, modelled as none. -/
def readonly_data_buffer_save (h : Heap) (b : ROBuffer) (allocOk : Bool) :
    Option (Heap × ROBuffer × Bool) :=
  if 0 < b.base.n_locks then
    if allocOk = true then
      (b.data.bind (heapRead h)).bind fun block =>
        if block.length < b.stride * b.base.height then none
        else
          some (h ++ [some (block.take (b.stride * b.base.height))],
            { b with
              data := some h.length
              saved_data := some h.length },
            true)
    else some (h, { b with data := none }, false)
  else some (h, b, true)

/-- readonly_data_buffer_drop: the save step followed by
wlr_buffer_drop on the base; returns the heap, the buffer, the events
of the drop, and the ok flag the C function returns. -/
def readonly_data_buffer_drop (h : Heap) (b : ROBuffer) (allocOk : Bool) :
    Option (Heap × ROBuffer × List Event × Bool) :=
  (readonly_data_buffer_save h b allocOk).bind fun r =>
    (wlr_buffer_drop r.2.1.base).map fun p =>
      (r.1, { r.2.1 with base := p.1 }, p.2, r.2.2)

end WlrBuffer

namespace WlrBuffer

/-- Release-acknowledgement state of a struct wlr_client_buffer: the
protocol resource back-reference (none once the client destroyed it)
and the resource_released flag. -/
structure ClientBuffer where
  resource : Option Unit
  resource_released : Bool
deriving DecidableEq, Repr

/-- client_buffer_handle_release: on the release signal, send the
wl_buffer release acknowledgement only if it was never sent and the
resource is still alive, then set the flag; returns the number of
acknowledgements sent (0 or 1). -/
def client_buffer_handle_release (b : ClientBuffer) : ClientBuffer × Nat :=
  if b.resource_released = false ∧ b.resource.isSome then
    ({ b with resource_released := true }, 1)
  else (b, 0)

/-- client_buffer_destroy: at final destruction, send the
acknowledgement only if it was never sent and the resource is still
alive; returns the number sent. -/
def client_buffer_destroy_sends (b : ClientBuffer) : Nat :=
  if b.resource_released = false ∧ b.resource.isSome then 1 else 0

/-- client_buffer_resource_handle_destroy: the client destroyed the
resource; clear the back-reference. -/
def client_buffer_resource_handle_destroy (b : ClientBuffer) : ClientBuffer :=
  { b with resource := none }

/-- External happenings that reach a client buffer during its life:
the buffer release signal (n_locks reached 0) and the destruction of
the protocol resource. -/
inductive CBEvent where
  | releaseSignal : CBEvent
  | resourceDestroy : CBEvent
deriving DecidableEq, Repr

/-- One lifetime event applied to a wlr_client_buffer. -/
def cbStep (b : ClientBuffer) : CBEvent → ClientBuffer × Nat
  | CBEvent.releaseSignal => client_buffer_handle_release b
  | CBEvent.resourceDestroy => (client_buffer_resource_handle_destroy b, 0)

/-- Run a list of lifetime events, totalling the acknowledgements
sent. -/
def cbRun (b : ClientBuffer) : List CBEvent → ClientBuffer × Nat
  | [] => (b, 0)
  | e :: es =>
    ((cbRun (cbStep b e).1 es).1, (cbStep b e).2 + (cbRun (cbStep b e).1 es).2)

/-- Acknowledgements sent over a whole lifetime: the events, then the
final client_buffer_destroy. -/
def cbLifetimeSends (b : ClientBuffer) (es : List CBEvent) : Nat :=
  (cbRun b es).2 + client_buffer_destroy_sends (cbRun b es).1

/-- Release state of a struct wlr_shm_client_buffer: only the resource
back-reference matters to the release handler; there is no
resource_released flag. -/
structure ShmClientBuffer where
  resource : Option Unit
deriving DecidableEq, Repr

/-- shm_client_buffer_handle_release: sends the acknowledgement
whenever the resource is alive, with no once-only flag. -/
def shm_client_buffer_handle_release (b : ShmClientBuffer) : Nat :=
  if b.resource.isSome then 1 else 0

/-- Run lifetime events on a shm client buffer, totalling the
acknowledgements (shm_client_buffer_destroy sends nothing). -/
def shmRun (b : ShmClientBuffer) : List CBEvent → ShmClientBuffer × Nat
  | [] => (b, 0)
  | CBEvent.releaseSignal :: es =>
    ((shmRun b es).1, shm_client_buffer_handle_release b + (shmRun b es).2)
  | CBEvent.resourceDestroy :: es => shmRun { resource := none } es

/-- A damage rectangle (pixman_box32). -/
structure Rect where
  x1 : Int
  y1 : Int
  x2 : Int
  y2 : Int
deriving DecidableEq, Repr

/-- The upload loop of wlr_client_buffer_apply_damage: write each
rectangle in order; the first failing wlr_texture_write_pixels aborts
the loop and the whole call, and the rectangles already uploaded are
kept.  Returns the success flag and the uploaded rectangles. -/
def uploadDamage (writeOk : Rect → Bool) : List Rect → Bool × List Rect
  | [] => (true, [])
  | r :: rs =>
    if writeOk r = true then
      ((uploadDamage writeOk rs).1, r :: (uploadDamage writeOk rs).2)
    else (false, [])

/-- The guard checks of wlr_client_buffer_apply_damage, in source
order: someone else holds a lock, either resource is not shm backed,
the formats differ, or the dimensions differ from the texture. -/
structure DamageCtx where
  n_locks : Nat
  both_shm : Bool
  new_fmt : Nat
  old_fmt : Nat
  width : Nat
  height : Nat
  tex_width : Nat
  tex_height : Nat
deriving DecidableEq, Repr

/-- wlr_client_buffer_apply_damage: the guard checks followed by the
upload loop; none models the NULL return, and the second component is
the list of rectangles actually uploaded before returning. -/
def wlr_client_buffer_apply_damage (c : DamageCtx) (writeOk : Rect → Bool)
    (rects : List Rect) : Option Unit × List Rect :=
  if 1 < c.n_locks then (none, [])
  else if c.both_shm = false then (none, [])
  else if c.new_fmt ≠ c.old_fmt then (none, [])
  else if c.width ≠ c.tex_width ∨ c.height ≠ c.tex_height then (none, [])
  else
    (if (uploadDamage writeOk rects).1 then some () else none,
      (uploadDamage writeOk rects).2)

end WlrBuffer

namespace Gles2

/-- The GL texture target of a wlr_gles2_texture: GL_TEXTURE_2D or
GL_TEXTURE_EXTERNAL_OES. -/
inductive TexTarget where
  | tex2D : TexTarget
  | externalOES : TexTarget
deriving DecidableEq, Repr

/-- DRM_FORMAT_INVALID, the sentinel format of imported textures. -/
def DRM_FORMAT_INVALID : Nat := 0

/-- struct wlr_gles2_texture: dimensions, the GL texture name, the
target, the EGLImage handle (none models EGL_NO_IMAGE_KHR), the drm
format code, the alpha flag and the locked source buffer (by id, none
when not buffer backed). -/
structure GTexture where
  width : Nat
  height : Nat
  tex : Nat
  target : TexTarget
  image : Option Nat
  drm_format : Nat
  has_alpha : Bool
  buffer : Option Nat
deriving DecidableEq, Repr

/-- Per-renderer state: the live texture registry and counters that
give out fresh GL texture names and fresh EGLImage handles. -/
structure GRenderer where
  textures : List GTexture
  next_image : Nat
  next_tex : Nat
deriving DecidableEq, Repr

/-- A GL or EGL call issued to the device. -/
inductive GPUCall where
  | saveContext : GPUCall
  | makeCurrent : GPUCall
  | bindTexture : GPUCall
  | texParameteri : GPUCall
  | pixelStorei : GPUCall
  | texSubImage2D : GPUCall
  | texImage2D : GPUCall
  | genTextures : GPUCall
  | eglCreateImage : GPUCall
  | eglImageTargetTexture2D : GPUCall
  | restoreContext : GPUCall
deriving DecidableEq, Repr

/-- Entry of the drm pixel format info table (external collaborator):
bits per pixel. -/
structure PixelFormatInfo where
  bpp : Nat
deriving DecidableEq, Repr

/-- Entry of the gles2 pixel format table (external collaborator). -/
structure Gles2PixelFormat where
  drm_format : Nat
  gl_format : Nat
  gl_type : Nat
  has_alpha : Bool
deriving DecidableEq, Repr

/-- check_stride: rejects a stride that is not a multiple of the bytes
per pixel, or smaller than width times bytes per pixel.  All operands
are uint32_t in C, so the product width * (bpp / 8) wraps modulo
2 ^ 32; the other operations cannot overflow on uint32_t inputs. -/
def check_stride (fmt : PixelFormatInfo) (stride width : Nat) : Bool :=
  if stride % (fmt.bpp / 8) ≠ 0 then false
  else if stride < (width * (fmt.bpp / 8)) % 2 ^ 32 then false
  else true

/-- gles2_texture_write_pixels: refuses any texture that is not a
plain GL_TEXTURE_2D without an attached EGLImage, before any GL call;
then looks up the two format tables (asserted non-null in C, so a
missing entry is a precondition violation, none); then validates the
stride, still before any GL call; only then saves the context and
uploads the sub-region.  Returns the C bool and the GPU calls
issued. -/
def gles2_texture_write_pixels
    (glFmt : Nat → Option Gles2PixelFormat)
    (drmFmt : Nat → Option PixelFormatInfo)
    (t : GTexture) (stride width hgt src_x src_y dst_x dst_y : Nat) :
    Option (Bool × List GPUCall) :=
  if t.target ≠ TexTarget.tex2D ∨ t.image ≠ none then some (false, [])
  else
    (glFmt t.drm_format).bind fun _ =>
      (drmFmt t.drm_format).bind fun fmt =>
        if check_stride fmt stride width = false then some (false, [])
        else
          some (true,
            [GPUCall.saveContext, GPUCall.makeCurrent, GPUCall.bindTexture,
             GPUCall.pixelStorei, GPUCall.pixelStorei, GPUCall.pixelStorei,
             GPUCall.texSubImage2D, GPUCall.pixelStorei, GPUCall.pixelStorei,
             GPUCall.pixelStorei, GPUCall.bindTexture, GPUCall.restoreContext])

/-- gles2_texture_from_pixels: unknown gles2 format is a plain failure
(NULL), a missing drm format info entry is an assert (none), an
invalid stride is rejected before any GL call, calloc failure
(allocOk false) is a plain failure; otherwise a fresh Mutable2D
texture is registered and the full image is uploaded. -/
def gles2_texture_from_pixels
    (glFmt : Nat → Option Gles2PixelFormat)
    (drmFmt : Nat → Option PixelFormatInfo)
    (r : GRenderer) (drm_format stride width hgt : Nat) (allocOk : Bool) :
    Option (Option (GRenderer × GTexture) × List GPUCall) :=
  match glFmt drm_format with
  | none => some (none, [])
  | some fmt =>
    (drmFmt drm_format).bind fun dfmt =>
      if check_stride dfmt stride width = false then some (none, [])
      else if allocOk = false then some (none, [])
      else
        some (some
          ({ textures := { width := width
                           height := hgt
                           tex := r.next_tex
                           target := TexTarget.tex2D
                           image := none
                           drm_format := fmt.drm_format
                           has_alpha := fmt.has_alpha
                           buffer := none } :: r.textures
             next_image := r.next_image
             next_tex := r.next_tex + 1 },
           { width := width
             height := hgt
             tex := r.next_tex
             target := TexTarget.tex2D
             image := none
             drm_format := fmt.drm_format
             has_alpha := fmt.has_alpha
             buffer := none }),
          [GPUCall.saveContext, GPUCall.makeCurrent, GPUCall.genTextures,
           GPUCall.bindTexture, GPUCall.texParameteri, GPUCall.texParameteri,
           GPUCall.pixelStorei, GPUCall.texImage2D, GPUCall.pixelStorei,
           GPUCall.bindTexture, GPUCall.restoreContext])

/-- gles2_texture_invalidate: false without an attached EGLImage; a
guaranteed no-op for GL_TEXTURE_EXTERNAL_OES targets (the driver sees
external writes immediately); otherwise re-binds the image. -/
def gles2_texture_invalidate (t : GTexture) : Bool × List GPUCall :=
  match t.image with
  | none => (false, [])
  | some _ =>
    if t.target = TexTarget.externalOES then (true, [])
    else
      (true,
        [GPUCall.saveContext, GPUCall.makeCurrent, GPUCall.bindTexture,
         GPUCall.eglImageTargetTexture2D, GPUCall.bindTexture,
         GPUCall.restoreContext])

/-- gles2_texture_from_dmabuf: calloc failure aborts before any GL
call; a failed EGL image import removes the half-made texture again
and leaves the registry as it was; success registers a fresh imported
texture whose target depends on the external-only flag reported by
the import, consuming one fresh EGLImage handle. -/
def gles2_texture_from_dmabuf (r : GRenderer) (width hgt : Nat)
    (external_only importOk allocOk : Bool) :
    Option (GRenderer × GTexture) × List GPUCall :=
  if allocOk = false then (none, [])
  else if importOk = false then
    (none, [GPUCall.saveContext, GPUCall.makeCurrent, GPUCall.eglCreateImage,
      GPUCall.restoreContext])
  else
    (some
      ({ textures := { width := width
                       height := hgt
                       tex := r.next_tex
                       target := if external_only = true then
                           TexTarget.externalOES else TexTarget.tex2D
                       image := some r.next_image
                       drm_format := DRM_FORMAT_INVALID
                       has_alpha := true
                       buffer := none } :: r.textures
         next_image := r.next_image + 1
         next_tex := r.next_tex + 1 },
       { width := width
         height := hgt
         tex := r.next_tex
         target := if external_only = true then
             TexTarget.externalOES else TexTarget.tex2D
         image := some r.next_image
         drm_format := DRM_FORMAT_INVALID
         has_alpha := true
         buffer := none }),
      [GPUCall.saveContext, GPUCall.makeCurrent, GPUCall.eglCreateImage,
       GPUCall.genTextures, GPUCall.bindTexture, GPUCall.texParameteri,
       GPUCall.texParameteri, GPUCall.eglImageTargetTexture2D,
       GPUCall.bindTexture, GPUCall.restoreContext])

/-- gles2_texture_from_dmabuf_buffer: first scan the registry for a
texture whose source buffer is this buffer; if found, invalidate it
(failure returns NULL), lock the buffer and return the very same
texture; otherwise import afresh, point the new texture at the
buffer, lock the buffer and subscribe to its destroy event. -/
def gles2_texture_from_dmabuf_buffer (r : GRenderer)
    (buf : WlrBuffer.Buffer) (bid width hgt : Nat)
    (external_only importOk allocOk : Bool) :
    (Option GTexture × GRenderer × WlrBuffer.Buffer) × List GPUCall :=
  match r.textures.find? (fun t => t.buffer == some bid) with
  | some t =>
    if (gles2_texture_invalidate t).1 = false then
      ((none, r, buf), (gles2_texture_invalidate t).2)
    else
      ((some t, r, WlrBuffer.wlr_buffer_lock buf),
        (gles2_texture_invalidate t).2)
  | none =>
    match gles2_texture_from_dmabuf r width hgt external_only importOk
        allocOk with
    | (none, calls) => ((none, r, buf), calls)
    | (some (r2, t), calls) =>
      (((some { t with buffer := some bid }),
        { r2 with textures := { t with buffer := some bid } :: r.textures },
        WlrBuffer.wlr_buffer_lock buf), calls)

/-- gles2_texture_from_buffer: the DMA-BUF path when the buffer
exports one, else the data-pointer upload path when the buffer has
one (dataPtr carries the format and stride handed out by
begin_data_ptr_access), else failure. -/
def gles2_texture_from_buffer (r : GRenderer) (buf : WlrBuffer.Buffer)
    (bid width hgt : Nat) (has_dmabuf : Bool)
    (dataPtr : Option (Nat × Nat)) (external_only importOk allocOk : Bool)
    (glFmt : Nat → Option Gles2PixelFormat)
    (drmFmt : Nat → Option PixelFormatInfo) :
    Option ((Option GTexture × GRenderer × WlrBuffer.Buffer) ×
      List GPUCall) :=
  if has_dmabuf = true then
    some (gles2_texture_from_dmabuf_buffer r buf bid width hgt external_only
      importOk allocOk)
  else
    match dataPtr with
    | some (format, stride) =>
      (gles2_texture_from_pixels glFmt drmFmt r format stride width hgt
        allocOk).map fun q =>
          match q.1 with
          | none => ((none, r, buf), q.2)
          | some (r2, t) => ((some t, r2, buf), q.2)
    | none => some ((none, r, buf), [])

end Gles2

namespace WlrBuffer

theorem consider_skip (b : Buffer) (h : b.dropped = false ∨ 0 < b.n_locks) :
    buffer_consider_destroy b = some (b, []) := by
  unfold buffer_consider_destroy
  rw [if_pos h]

theorem consider_blocked (b : Buffer) (h1 : b.dropped = true)
    (h2 : b.n_locks = 0) (h3 : b.accessing_data_ptr = true) :
    buffer_consider_destroy b = none := by
  unfold buffer_consider_destroy
  rw [if_neg (by simp [h1, h2]), if_pos h3]

theorem consider_fire (b : Buffer) (h1 : b.dropped = true)
    (h2 : b.n_locks = 0) (h3 : b.accessing_data_ptr = false) :
    buffer_consider_destroy b =
      some ({ b with destroyed := true }, [Event.destroyEv, Event.freeEv]) := by
  unfold buffer_consider_destroy
  rw [if_neg (by simp [h1, h2]), if_neg (by simp [h3])]

theorem unlock_zero (b : Buffer) (h : b.n_locks = 0) :
    wlr_buffer_unlock b = none := by
  unfold wlr_buffer_unlock
  rw [if_pos h]

theorem unlock_many (b : Buffer) (h : 1 < b.n_locks) :
    wlr_buffer_unlock b = some ({ b with n_locks := b.n_locks - 1 }, []) := by
  unfold wlr_buffer_unlock
  rw [if_neg (by omega), consider_skip _ (Or.inr (Nat.sub_pos_of_lt h))]
  simp only [Option.map_some']
  rw [if_neg (by omega)]
  rfl

theorem unlock_last_live (b : Buffer) (h : b.n_locks = 1)
    (hdr : b.dropped = false) :
    wlr_buffer_unlock b =
      some ({ b with n_locks := 0 }, [Event.releaseEv]) := by
  unfold wlr_buffer_unlock
  rw [if_neg (by omega),
    consider_skip { b with n_locks := b.n_locks - 1 } (Or.inl hdr)]
  simp only [Option.map_some']
  rw [if_pos (by omega), h]
  rfl

theorem unlock_last_dropped (b : Buffer) (h : b.n_locks = 1)
    (hdr : b.dropped = true) (hacc : b.accessing_data_ptr = false) :
    wlr_buffer_unlock b =
      some ({ b with n_locks := 0, destroyed := true },
        [Event.releaseEv, Event.destroyEv, Event.freeEv]) := by
  unfold wlr_buffer_unlock
  rw [if_neg (by omega),
    consider_fire { b with n_locks := b.n_locks - 1 } hdr (by simp [h]) hacc]
  simp only [Option.map_some']
  rw [if_pos (by omega), h]
  rfl

theorem unlock_last_dropped_accessing (b : Buffer) (h : b.n_locks = 1)
    (hdr : b.dropped = true) (hacc : b.accessing_data_ptr = true) :
    wlr_buffer_unlock b = none := by
  unfold wlr_buffer_unlock
  rw [if_neg (by omega),
    consider_blocked { b with n_locks := b.n_locks - 1 } hdr (by simp [h]) hacc]
  rfl

theorem drop_already (b : Buffer) (h : b.dropped = true) :
    wlr_buffer_drop b = none := by
  unfold wlr_buffer_drop
  rw [if_pos h]

theorem drop_locked (b : Buffer) (hdr : b.dropped = false)
    (hn : 0 < b.n_locks) :
    wlr_buffer_drop b = some ({ b with dropped := true }, []) := by
  unfold wlr_buffer_drop
  rw [if_neg (by simp [hdr]),
    consider_skip { b with dropped := true } (Or.inr hn)]

theorem drop_unlocked (b : Buffer) (hdr : b.dropped = false)
    (hn : b.n_locks = 0) (hacc : b.accessing_data_ptr = false) :
    wlr_buffer_drop b =
      some ({ b with dropped := true, destroyed := true },
        [Event.destroyEv, Event.freeEv]) := by
  unfold wlr_buffer_drop
  rw [if_neg (by simp [hdr]),
    consider_fire { b with dropped := true } rfl (by simp [hn]) hacc]

theorem drop_blocked (b : Buffer) (hdr : b.dropped = false)
    (hn : b.n_locks = 0) (hacc : b.accessing_data_ptr = true) :
    wlr_buffer_drop b = none := by
  unfold wlr_buffer_drop
  rw [if_neg (by simp [hdr]),
    consider_blocked { b with dropped := true } rfl (by simp [hn]) hacc]

theorem stepOp_of_destroyed (b : Buffer) (op : Op) (hb : b.destroyed = true) :
    stepOp b op = none := by
  unfold stepOp
  rw [if_pos hb]

theorem stepOp_live (b : Buffer) (op : Op) (hb : b.destroyed = false) :
    stepOp b op =
      match op with
      | Op.lock => some (wlr_buffer_lock b, [])
      | Op.unlock => wlr_buffer_unlock b
      | Op.drop => wlr_buffer_drop b
      | Op.beginAccess implOk =>
          (buffer_begin_data_ptr_access b implOk).map (fun p => (p.1, []))
      | Op.endAccess =>
          (buffer_end_data_ptr_access b).map (fun b2 => (b2, [])) := by
  unfold stepOp
  rw [if_neg (by simp [hb])]

theorem run_of_destroyed (b : Buffer) (ops : List Op) (p : Buffer × List Event)
    (hb : b.destroyed = true) (h : run b ops = some p) :
    ops = [] ∧ p = (b, []) := by
  cases ops with
  | nil =>
    simp only [run, Option.some.injEq] at h
    exact ⟨rfl, h.symm⟩
  | cons op ops =>
    rw [run, stepOp_of_destroyed b op hb] at h
    simp at h

end WlrBuffer

namespace WlrBuffer

theorem stepOp_lock (b : Buffer) (hb : b.destroyed = false) :
    stepOp b Op.lock = some (wlr_buffer_lock b, []) := by
  unfold stepOp
  rw [if_neg (by simp [hb])]

theorem stepOp_unlock (b : Buffer) (hb : b.destroyed = false) :
    stepOp b Op.unlock = wlr_buffer_unlock b := by
  unfold stepOp
  rw [if_neg (by simp [hb])]

theorem stepOp_drop (b : Buffer) (hb : b.destroyed = false) :
    stepOp b Op.drop = wlr_buffer_drop b := by
  unfold stepOp
  rw [if_neg (by simp [hb])]

theorem stepOp_begin (b : Buffer) (implOk : Bool) (hb : b.destroyed = false) :
    stepOp b (Op.beginAccess implOk) =
      (buffer_begin_data_ptr_access b implOk).map (fun p => (p.1, [])) := by
  unfold stepOp
  rw [if_neg (by simp [hb])]

theorem stepOp_end (b : Buffer) (hb : b.destroyed = false) :
    stepOp b Op.endAccess =
      (buffer_end_data_ptr_access b).map (fun b2 => (b2, [])) := by
  unfold stepOp
  rw [if_neg (by simp [hb])]

theorem stepOp_events (b : Buffer) (op : Op) (b2 : Buffer) (evs : List Event)
    (hd : b.destroyed = false) (h : stepOp b op = some (b2, evs)) :
    (b2.destroyed = false →
      evs.count Event.destroyEv = 0 ∧ evs.count Event.freeEv = 0) ∧
    (b2.destroyed = true → b2.dropped = true ∧ b2.n_locks = 0 ∧
      ∃ l, evs = l ++ [Event.destroyEv, Event.freeEv] ∧
        Event.destroyEv ∉ l ∧ Event.freeEv ∉ l) := by
  cases op with
  | lock =>
    rw [stepOp_lock b hd] at h
    simp only [Option.some.injEq, Prod.mk.injEq] at h
    obtain ⟨rfl, rfl⟩ := h
    exact ⟨fun _ => ⟨rfl, rfl⟩, fun hfalse => by
      simp [wlr_buffer_lock, hd] at hfalse⟩
  | unlock =>
    rw [stepOp_unlock b hd] at h
    rcases Nat.eq_zero_or_pos b.n_locks with hn | hn
    · rw [unlock_zero b hn] at h
      simp at h
    · rcases eq_or_lt_of_le hn with hn1 | hn1
      · cases hdr : b.dropped
        · rw [unlock_last_live b hn1.symm hdr] at h
          simp only [Option.some.injEq, Prod.mk.injEq] at h
          obtain ⟨rfl, rfl⟩ := h
          exact ⟨fun _ => ⟨rfl, rfl⟩, fun hfalse => by simp [hd] at hfalse⟩
        · cases hacc : b.accessing_data_ptr
          · rw [unlock_last_dropped b hn1.symm hdr hacc] at h
            simp only [Option.some.injEq, Prod.mk.injEq] at h
            obtain ⟨rfl, rfl⟩ := h
            refine ⟨fun hfalse => by simp at hfalse, fun _ => ?_⟩
            exact ⟨hdr, rfl, [Event.releaseEv], rfl, by simp, by simp⟩
          · rw [unlock_last_dropped_accessing b hn1.symm hdr hacc] at h
            simp at h
      · rw [unlock_many b hn1] at h
        simp only [Option.some.injEq, Prod.mk.injEq] at h
        obtain ⟨rfl, rfl⟩ := h
        exact ⟨fun _ => ⟨rfl, rfl⟩, fun hfalse => by simp [hd] at hfalse⟩
  | drop =>
    rw [stepOp_drop b hd] at h
    cases hdr : b.dropped
    · rcases Nat.eq_zero_or_pos b.n_locks with hn | hn
      · cases hacc : b.accessing_data_ptr
        · rw [drop_unlocked b hdr hn hacc] at h
          simp only [Option.some.injEq, Prod.mk.injEq] at h
          obtain ⟨rfl, rfl⟩ := h
          refine ⟨fun hfalse => by simp at hfalse, fun _ => ?_⟩
          exact ⟨rfl, hn, [], rfl, by simp, by simp⟩
        · rw [drop_blocked b hdr hn hacc] at h
          simp at h
      · rw [drop_locked b hdr hn] at h
        simp only [Option.some.injEq, Prod.mk.injEq] at h
        obtain ⟨rfl, rfl⟩ := h
        exact ⟨fun _ => ⟨rfl, rfl⟩, fun hfalse => by simp [hd] at hfalse⟩
    · rw [drop_already b hdr] at h
      simp at h
  | beginAccess implOk =>
    rw [stepOp_begin b implOk hd] at h
    unfold buffer_begin_data_ptr_access at h
    split at h
    · simp at h
    · split at h <;>
      · simp only [Option.map_some', Option.some.injEq, Prod.mk.injEq] at h
        obtain ⟨rfl, rfl⟩ := h
        exact ⟨fun _ => ⟨rfl, rfl⟩, fun hfalse => by simp [hd] at hfalse⟩
  | endAccess =>
    rw [stepOp_end b hd] at h
    unfold buffer_end_data_ptr_access at h
    split at h
    · simp only [Option.map_some', Option.some.injEq, Prod.mk.injEq] at h
      obtain ⟨rfl, rfl⟩ := h
      exact ⟨fun _ => ⟨rfl, rfl⟩, fun hfalse => by simp [hd] at hfalse⟩
    · simp at h

end WlrBuffer

namespace WlrBuffer

theorem run_events (ops : List Op) :
    ∀ b b2 : Buffer, ∀ evs : List Event, b.destroyed = false →
    run b ops = some (b2, evs) →
    (b2.destroyed = false →
      evs.count Event.destroyEv = 0 ∧ evs.count Event.freeEv = 0) ∧
    (b2.destroyed = true → b2.dropped = true ∧ b2.n_locks = 0 ∧
      ∃ l, evs = l ++ [Event.destroyEv, Event.freeEv] ∧
        Event.destroyEv ∉ l ∧ Event.freeEv ∉ l) := by
  induction ops with
  | nil =>
    intro b b2 evs hd h
    simp only [run, Option.some.injEq, Prod.mk.injEq] at h
    obtain ⟨rfl, rfl⟩ := h
    exact ⟨fun _ => ⟨rfl, rfl⟩, fun hfalse => by simp [hd] at hfalse⟩
  | cons op ops ih =>
    intro b b2 evs hd h
    rw [run] at h
    cases hstep : stepOp b op with
    | none => rw [hstep] at h; simp at h
    | some p =>
      obtain ⟨b1, evs1⟩ := p
      rw [hstep] at h
      simp only [Option.some_bind] at h
      cases hrun : run b1 ops with
      | none => rw [hrun] at h; simp at h
      | some q =>
        obtain ⟨b2', evs2⟩ := q
        rw [hrun] at h
        simp only [Option.map_some', Option.some.injEq, Prod.mk.injEq] at h
        obtain ⟨rfl, rfl⟩ := h
        by_cases h1 : b1.destroyed = true
        · obtain ⟨rfl, hq⟩ := run_of_destroyed b1 ops _ h1 hrun
          have hs := stepOp_events b op b1 evs1 hd hstep
          have hb2q : b2' = b1 := congrArg Prod.fst hq
          have hevs2 : evs2 = [] := congrArg Prod.snd hq
          rw [hb2q, hevs2]
          refine ⟨fun hfalse => by rw [h1] at hfalse; simp at hfalse, fun _ => ?_⟩
          obtain ⟨hdrop, hlocks, l, hl, hl1, hl2⟩ := hs.2 h1
          exact ⟨hdrop, hlocks, l, by simpa using hl, hl1, hl2⟩
        · have h1' : b1.destroyed = false := by
            cases hx : b1.destroyed
            · rfl
            · exact absurd hx h1
          have hs := (stepOp_events b op b1 evs1 hd hstep).1 h1'
          have ihh := ih b1 b2' evs2 h1' hrun
          constructor
          · intro hb2
            have hc := ihh.1 hb2
            simp [List.count_append, hs.1, hs.2, hc.1, hc.2]
          · intro hb2
            obtain ⟨hdrop, hlocks, l, rfl, hl1, hl2⟩ := ihh.2 hb2
            refine ⟨hdrop, hlocks, evs1 ++ l, by simp, ?_, ?_⟩
            · simp only [List.mem_append, not_or]
              exact ⟨List.count_eq_zero.mp hs.1, hl1⟩
            · simp only [List.mem_append, not_or]
              exact ⟨List.count_eq_zero.mp hs.2, hl2⟩

end WlrBuffer

namespace WlrBuffer

theorem run_single (b : Buffer) (op : Op) :
    run b [op] = stepOp b op := by
  cases h : stepOp b op with
  | none => simp [run, h]
  | some p => simp [run, h]

theorem run_append (l1 l2 : List Op) : ∀ b : Buffer,
    run b (l1 ++ l2) =
      (run b l1).bind fun p =>
        (run p.1 l2).map fun q => (q.1, p.2 ++ q.2) := by
  induction l1 with
  | nil =>
    intro b
    simp only [List.nil_append, run, Option.some_bind]
    cases run b l2 with
    | none => rfl
    | some q => simp
  | cons op l1 ih =>
    intro b
    rw [List.cons_append, run, run]
    cases stepOp b op with
    | none => simp
    | some p =>
      simp only [Option.some_bind]
      rw [ih p.1]
      cases run p.1 l1 with
      | none => simp
      | some q =>
        simp only [Option.some_bind, Option.map_some']
        cases run q.1 l2 with
        | none => simp
        | some r => simp

theorem run_replicate_lock (n : Nat) : ∀ b : Buffer, b.destroyed = false →
    run b (List.replicate n Op.lock) =
      some ({ b with n_locks := b.n_locks + n }, []) := by
  induction n with
  | zero =>
    intro b hd
    simp [run]
  | succ n ih =>
    intro b hd
    rw [List.replicate_succ, run, stepOp_lock b hd]
    simp only [Option.some_bind]
    rw [ih (wlr_buffer_lock b) hd]
    have harith : b.n_locks + 1 + n = b.n_locks + (n + 1) := by omega
    simp [wlr_buffer_lock, harith]

theorem run_replicate_unlock_lt (m : Nat) : ∀ b : Buffer,
    b.destroyed = false → m < b.n_locks →
    run b (List.replicate m Op.unlock) =
      some ({ b with n_locks := b.n_locks - m }, []) := by
  induction m with
  | zero =>
    intro b hd hm
    simp [run]
  | succ m ih =>
    intro b hd hm
    rw [List.replicate_succ, run, stepOp_unlock b hd,
      unlock_many b (by omega)]
    simp only [Option.some_bind]
    rw [ih { b with n_locks := b.n_locks - 1 } hd
      (by show m < b.n_locks - 1; omega)]
    have harith : b.n_locks - 1 - m = b.n_locks - (m + 1) := by omega
    simp [harith]

theorem run_drain_dropped (b : Buffer) (hd : b.destroyed = false)
    (hdr : b.dropped = true) (hacc : b.accessing_data_ptr = false)
    (hn : 0 < b.n_locks) :
    run b (List.replicate b.n_locks Op.unlock) =
      some ({ b with n_locks := 0, destroyed := true },
        [Event.releaseEv, Event.destroyEv, Event.freeEv]) := by
  have hsplit : List.replicate b.n_locks Op.unlock =
      List.replicate (b.n_locks - 1) Op.unlock ++ [Op.unlock] := by
    rw [← List.replicate_succ']
    congr 1
    omega
  rw [hsplit, run_append, run_replicate_unlock_lt (b.n_locks - 1) b hd (by omega)]
  simp only [Option.some_bind]
  rw [run_single, stepOp_unlock { b with n_locks := b.n_locks - (b.n_locks - 1) } hd,
    unlock_last_dropped { b with n_locks := b.n_locks - (b.n_locks - 1) }
      (by show b.n_locks - (b.n_locks - 1) = 1; omega) hdr hacc]
  simp

theorem run_drain_live (b : Buffer) (hd : b.destroyed = false)
    (hdr : b.dropped = false) (hn : 0 < b.n_locks) :
    run b (List.replicate b.n_locks Op.unlock) =
      some ({ b with n_locks := 0 }, [Event.releaseEv]) := by
  have hsplit : List.replicate b.n_locks Op.unlock =
      List.replicate (b.n_locks - 1) Op.unlock ++ [Op.unlock] := by
    rw [← List.replicate_succ']
    congr 1
    omega
  rw [hsplit, run_append, run_replicate_unlock_lt (b.n_locks - 1) b hd (by omega)]
  simp only [Option.some_bind]
  rw [run_single, stepOp_unlock { b with n_locks := b.n_locks - (b.n_locks - 1) } hd,
    unlock_last_live { b with n_locks := b.n_locks - (b.n_locks - 1) }
      (by show b.n_locks - (b.n_locks - 1) = 1; omega) hdr]
  simp

end WlrBuffer

namespace WlrBuffer

/-- C1: for every buffer, along any precondition respecting operation
sequence from a fresh buffer, the destroy event fires exactly once
(once when the run ends destroyed, zero times otherwise), only at a
state where dropped is true and n_locks is 0, and the backend destroy
(freeEv) runs only after the destroy event; in particular dropping
while n_locks is positive and unlocking down to zero fires destroy
exactly once, and never before the lock count reaches zero. -/
theorem C1_destroy_event_exactly_once (W H : Nat) :
    (∀ ops : List Op, ∀ b2 : Buffer, ∀ evs : List Event,
      run (wlr_buffer_init W H) ops = some (b2, evs) →
      evs.count Event.destroyEv = (if b2.destroyed then 1 else 0) ∧
      evs.count Event.freeEv = (if b2.destroyed then 1 else 0) ∧
      (b2.destroyed = true → b2.dropped = true ∧ b2.n_locks = 0 ∧
        ∃ l, evs = l ++ [Event.destroyEv, Event.freeEv] ∧
          Event.destroyEv ∉ l ∧ Event.freeEv ∉ l)) ∧
    (∀ n m : Nat, m < n →
      run (wlr_buffer_init W H)
        (List.replicate n Op.lock ++ Op.drop :: List.replicate m Op.unlock) =
        some ({ wlr_buffer_init W H with n_locks := n - m, dropped := true },
          [])) ∧
    (∀ n : Nat, 0 < n →
      run (wlr_buffer_init W H)
        (List.replicate n Op.lock ++ Op.drop :: List.replicate n Op.unlock) =
        some ({ wlr_buffer_init W H with dropped := true, destroyed := true },
          [Event.releaseEv, Event.destroyEv, Event.freeEv])) := by
  refine ⟨?_, ?_, ?_⟩
  · intro ops b2 evs hrun
    have hev := run_events ops (wlr_buffer_init W H) b2 evs rfl hrun
    cases hb : b2.destroyed
    · have h1 := hev.1 hb
      refine ⟨by simp [h1.1], by simp [h1.2], ?_⟩
      intro hfalse
      simp at hfalse
    · have h2 := hev.2 hb
      obtain ⟨hdrop, hlocks, l, rfl, hl1, hl2⟩ := h2
      refine ⟨?_, ?_, fun _ => ⟨hdrop, hlocks, l, rfl, hl1, hl2⟩⟩
      · simp [List.count_append, List.count_eq_zero.mpr hl1]
      · simp [List.count_append, List.count_eq_zero.mpr hl2]
  · intro n m hmn
    have e1 : run (wlr_buffer_init W H) (List.replicate n Op.lock) =
        some ({ wlr_buffer_init W H with n_locks := n }, []) := by
      rw [run_replicate_lock n _ rfl]
      simp [wlr_buffer_init]
    have e2 : run { wlr_buffer_init W H with n_locks := n } [Op.drop] =
        some ({ wlr_buffer_init W H with n_locks := n, dropped := true },
          []) := by
      rw [run_single, stepOp_drop _ rfl,
        drop_locked _ rfl (by show 0 < n; omega)]
    have e3 : run { wlr_buffer_init W H with n_locks := n, dropped := true }
        (List.replicate m Op.unlock) =
        some ({ wlr_buffer_init W H with n_locks := n - m, dropped := true },
          []) := by
      exact run_replicate_unlock_lt m _ rfl (by show m < n; omega)
    rw [show (List.replicate n Op.lock ++
          Op.drop :: List.replicate m Op.unlock : List Op) =
        List.replicate n Op.lock ++
          ([Op.drop] ++ List.replicate m Op.unlock) from rfl,
      run_append, e1]
    simp only [Option.some_bind]
    rw [run_append, e2]
    simp only [Option.some_bind, Option.map_some']
    rw [e3]
    simp
  · intro n hn
    have e1 : run (wlr_buffer_init W H) (List.replicate n Op.lock) =
        some ({ wlr_buffer_init W H with n_locks := n }, []) := by
      rw [run_replicate_lock n _ rfl]
      simp [wlr_buffer_init]
    have e2 : run { wlr_buffer_init W H with n_locks := n } [Op.drop] =
        some ({ wlr_buffer_init W H with n_locks := n, dropped := true },
          []) := by
      rw [run_single, stepOp_drop _ rfl,
        drop_locked _ rfl (by show 0 < n; omega)]
    have e3 : run { wlr_buffer_init W H with n_locks := n, dropped := true }
        (List.replicate n Op.unlock) =
        some ({ wlr_buffer_init W H with dropped := true, destroyed := true },
          [Event.releaseEv, Event.destroyEv, Event.freeEv]) := by
      exact run_drain_dropped _ rfl rfl rfl (by show 0 < n; omega)
    rw [show (List.replicate n Op.lock ++
          Op.drop :: List.replicate n Op.unlock : List Op) =
        List.replicate n Op.lock ++
          ([Op.drop] ++ List.replicate n Op.unlock) from rfl,
      run_append, e1]
    simp only [Option.some_bind]
    rw [run_append, e2]
    simp only [Option.some_bind, Option.map_some']
    rw [e3]
    simp

/-- C1 witness: lock twice, drop, unlock twice on a concrete fresh
buffer fires release, destroy, free in that order, each exactly
once. -/
theorem C1_destroy_event_exactly_once_witness :
    run (wlr_buffer_init 4 4)
      (List.replicate 2 Op.lock ++ Op.drop :: List.replicate 2 Op.unlock) =
      some ({ wlr_buffer_init 4 4 with dropped := true, destroyed := true },
        [Event.releaseEv, Event.destroyEv, Event.freeEv]) :=
  (C1_destroy_event_exactly_once 4 4).2.2 2 (by decide)

end WlrBuffer

namespace WlrBuffer

/-- C2 counterexample: lock, unlock, lock, unlock is an interleaving of
two matched lock and unlock pairs, brings n_locks back to 0, but emits
the release event twice (once at each transition to zero), refuting
the claim that any interleaving of matched pairs emits release exactly
once. -/
theorem C2_interleaving_counterexample :
    run (wlr_buffer_init 1 1) [Op.lock, Op.unlock, Op.lock, Op.unlock] =
      some (wlr_buffer_init 1 1, [Event.releaseEv, Event.releaseEv]) ∧
    ¬ [Event.releaseEv, Event.releaseEv].count Event.releaseEv = 1 := by
  decide

/-- C2 (amended): N lock calls followed by N unlock calls bring
n_locks back to 0 and emit release exactly once, at the final unlock
(any strict prefix of the unlocks emits nothing); in general release
is emitted at every unlock that makes n_locks reach 0, on a singly
locked buffer with a release and nothing else, and with no event at
all when locks remain; unlock with n_locks equal to 0 is a
precondition violation. -/
theorem C2_release_exactly_once_sequential (W H : Nat) :
    (∀ n : Nat, 0 < n →
      run (wlr_buffer_init W H)
        (List.replicate n Op.lock ++ List.replicate n Op.unlock) =
        some (wlr_buffer_init W H, [Event.releaseEv])) ∧
    (∀ n m : Nat, m < n →
      run (wlr_buffer_init W H)
        (List.replicate n Op.lock ++ List.replicate m Op.unlock) =
        some ({ wlr_buffer_init W H with n_locks := n - m }, [])) ∧
    (∀ b : Buffer, b.n_locks = 0 → wlr_buffer_unlock b = none) ∧
    (∀ b : Buffer, b.dropped = false → b.n_locks = 1 →
      wlr_buffer_unlock b =
        some ({ b with n_locks := 0 }, [Event.releaseEv])) ∧
    (∀ b : Buffer, 1 < b.n_locks →
      wlr_buffer_unlock b =
        some ({ b with n_locks := b.n_locks - 1 }, [])) := by
  refine ⟨?_, ?_, unlock_zero, fun b hdr h1 => unlock_last_live b h1 hdr,
    unlock_many⟩
  · intro n hn
    have e1 : run (wlr_buffer_init W H) (List.replicate n Op.lock) =
        some ({ wlr_buffer_init W H with n_locks := n }, []) := by
      rw [run_replicate_lock n _ rfl]
      simp [wlr_buffer_init]
    have e2 : run { wlr_buffer_init W H with n_locks := n }
        (List.replicate n Op.unlock) =
        some (wlr_buffer_init W H, [Event.releaseEv]) := by
      exact run_drain_live _ rfl rfl (by show 0 < n; omega)
    rw [run_append, e1]
    simp only [Option.some_bind]
    rw [e2]
    simp
  · intro n m hmn
    have e1 : run (wlr_buffer_init W H) (List.replicate n Op.lock) =
        some ({ wlr_buffer_init W H with n_locks := n }, []) := by
      rw [run_replicate_lock n _ rfl]
      simp [wlr_buffer_init]
    have e3 : run { wlr_buffer_init W H with n_locks := n }
        (List.replicate m Op.unlock) =
        some ({ wlr_buffer_init W H with n_locks := n - m }, []) := by
      exact run_replicate_unlock_lt m _ rfl (by show m < n; omega)
    rw [run_append, e1]
    simp only [Option.some_bind]
    rw [e3]
    simp

/-- C2 witness: three locks followed by three unlocks on a concrete
fresh buffer end at n_locks 0 with exactly one release event. -/
theorem C2_release_exactly_once_sequential_witness :
    run (wlr_buffer_init 2 2)
      (List.replicate 3 Op.lock ++ List.replicate 3 Op.unlock) =
      some (wlr_buffer_init 2 2, [Event.releaseEv]) :=
  (C2_release_exactly_once_sequential 2 2).1 3 (by decide)

/-- C3: accessing_data_ptr is true exactly between a successful begin
and the matching end (a failed begin leaves it false), nested begin or
end without begin is a precondition violation, and destruction never
proceeds while accessing_data_ptr is true (buffer_consider_destroy
either aborts on its assert or leaves the buffer untouched). -/
theorem C3_data_ptr_access_invariant :
    (∀ b : Buffer, b.accessing_data_ptr = false →
      buffer_begin_data_ptr_access b true =
        some ({ b with accessing_data_ptr := true }, true) ∧
      buffer_begin_data_ptr_access b false = some (b, false) ∧
      buffer_end_data_ptr_access b = none) ∧
    (∀ b : Buffer, b.accessing_data_ptr = true →
      (∀ implOk : Bool, buffer_begin_data_ptr_access b implOk = none) ∧
      buffer_end_data_ptr_access b =
        some { b with accessing_data_ptr := false } ∧
      (∀ b2 : Buffer, ∀ evs : List Event,
        buffer_consider_destroy b = some (b2, evs) →
        b2 = b ∧ evs = [] ∧ b2.destroyed = b.destroyed)) := by
  constructor
  · intro b hacc
    refine ⟨?_, ?_, ?_⟩
    · unfold buffer_begin_data_ptr_access
      rw [if_neg (by simp [hacc]), if_pos rfl]
    · unfold buffer_begin_data_ptr_access
      rw [if_neg (by simp [hacc]), if_neg (by simp)]
    · unfold buffer_end_data_ptr_access
      rw [if_neg (by simp [hacc])]
  · intro b hacc
    refine ⟨?_, ?_, ?_⟩
    · intro implOk
      unfold buffer_begin_data_ptr_access
      rw [if_pos hacc]
    · unfold buffer_end_data_ptr_access
      rw [if_pos hacc]
    · intro b2 evs h
      unfold buffer_consider_destroy at h
      by_cases hc : b.dropped = false ∨ 0 < b.n_locks
      · rw [if_pos hc] at h
        simp only [Option.some.injEq, Prod.mk.injEq] at h
        exact ⟨h.1.symm, h.2.symm, congrArg Buffer.destroyed h.1.symm⟩
      · rw [if_neg hc, if_pos hacc] at h
        simp at h

/-- C3 witness: a failed begin on a concrete fresh buffer returns
false and leaves the flag clear. -/
theorem C3_data_ptr_access_invariant_witness :
    buffer_begin_data_ptr_access (wlr_buffer_init 2 2) false =
      some (wlr_buffer_init 2 2, false) :=
  (C3_data_ptr_access_invariant.1 (wlr_buffer_init 2 2) rfl).2.1

/-- C10: wlr_buffer_drop and wlr_buffer_unlock on a NULL handle are
total no-ops: they succeed, change no state and emit no event. -/
theorem C10_null_handle_noop :
    wlr_buffer_drop_opt none = some (none, []) ∧
    wlr_buffer_unlock_opt none = some (none, []) :=
  ⟨rfl, rfl⟩

end WlrBuffer

namespace WlrBuffer

/-- C4: dropping a still-locked wlr_readonly_data_buffer copies the
stride * height caller bytes into a freshly allocated owned block, so
a later begin_data_ptr_access yields the original bytes even after the
caller frees its block; if the copy allocation fails the drop reports
failure, destroys nothing (no destroy or free event, base merely
dropped), and every later begin_data_ptr_access fails instead of
exposing the caller pointer. -/
theorem C4_readonly_drop_saves_bytes (h : Heap) (b : ROBuffer) (a : Nat)
    (block : List Nat)
    (hdr : b.base.dropped = false) (hacc : b.base.accessing_data_ptr = false)
    (hn : 0 < b.base.n_locks)
    (hdata : b.data = some a) (hread : heapRead h a = some block)
    (hlen : b.stride * b.base.height ≤ block.length) :
    (readonly_data_buffer_drop h b true =
      some (h ++ [some (block.take (b.stride * b.base.height))],
        { b with
          base := { b.base with dropped := true }
          data := some h.length
          saved_data := some h.length }, [], true)) ∧
    (heapRead
        (heapFree (h ++ [some (block.take (b.stride * b.base.height))]) a)
        h.length = some (block.take (b.stride * b.base.height))) ∧
    (ro_begin_data_ptr_access
        { b with
          base := { b.base with dropped := true }
          data := some h.length
          saved_data := some h.length } =
      some ({ b with
          base := { b.base with
            dropped := true
            accessing_data_ptr := true }
          data := some h.length
          saved_data := some h.length },
        some (h.length, b.format, b.stride))) ∧
    (readonly_data_buffer_drop h b false =
      some (h, { b with
        base := { b.base with dropped := true }
        data := none }, [], false)) ∧
    (ro_begin_data_ptr_access
        { b with
          base := { b.base with dropped := true }
          data := none } =
      some ({ b with
          base := { b.base with dropped := true }
          data := none },
        none)) := by
  have hdrop := drop_locked b.base hdr hn
  refine ⟨?_, ?_, ?_, ?_, ?_⟩
  · have hsave : readonly_data_buffer_save h b true =
        some (h ++ [some (block.take (b.stride * b.base.height))],
          { b with
            data := some h.length
            saved_data := some h.length },
          true) := by
      unfold readonly_data_buffer_save
      rw [if_pos hn, if_pos rfl, hdata]
      simp only [Option.some_bind]
      rw [hread]
      simp only [Option.some_bind]
      rw [if_neg (by omega)]
    unfold readonly_data_buffer_drop
    rw [hsave]
    simp [hdrop]
  · have hx : h[a]? = some (some block) := by
      unfold heapRead at hread
      cases hy : h[a]? with
      | none => simp [hy] at hread
      | some o =>
        rw [hy] at hread
        simp only [Option.some_bind, id] at hread
        rw [hread]
    have ha : a < h.length := by
      by_contra hcon
      push_neg at hcon
      rw [List.getElem?_eq_none hcon] at hx
      exact absurd hx (by simp)
    unfold heapRead heapFree
    rw [List.getElem?_set_ne (by omega), List.getElem?_concat_length]
    rfl
  · unfold ro_begin_data_ptr_access
    rw [if_neg (by simp [hacc])]
    rfl
  · have hsave : readonly_data_buffer_save h b false =
        some (h, { b with data := none }, false) := by
      unfold readonly_data_buffer_save
      rw [if_pos hn, if_neg (by simp)]
    unfold readonly_data_buffer_drop
    rw [hsave]
    simp [hdrop]
  · unfold ro_begin_data_ptr_access
    rw [if_neg (by simp [hacc])]
    rfl

/-- C4 witness: the spec scenario, a 4 by 4 ARGB8888 stride 16 buffer
over a 64 byte caller block, locked once then dropped: the drop
allocates an owned copy of the 64 bytes at a fresh address, and that
copy still reads back unchanged after the caller block is freed. -/
theorem C4_readonly_drop_saves_bytes_witness :
    (readonly_data_buffer_drop [some (List.range 64)]
      { base := { width := 4
                  height := 4
                  n_locks := 1
                  dropped := false
                  accessing_data_ptr := false
                  destroyed := false }
        data := some 0
        format := 875713089
        stride := 16
        saved_data := none } true =
      some ([some (List.range 64)] ++ [some ((List.range 64).take (16 * 4))],
        { base := { width := 4
                    height := 4
                    n_locks := 1
                    dropped := true
                    accessing_data_ptr := false
                    destroyed := false }
          data := some 1
          format := 875713089
          stride := 16
          saved_data := some 1 }, [], true)) ∧
    (heapRead
        (heapFree ([some (List.range 64)] ++
          [some ((List.range 64).take (16 * 4))]) 0) 1 =
      some ((List.range 64).take (16 * 4))) := by
  have hmain := C4_readonly_drop_saves_bytes [some (List.range 64)]
    { base := { width := 4
                height := 4
                n_locks := 1
                dropped := false
                accessing_data_ptr := false
                destroyed := false }
      data := some 0
      format := 875713089
      stride := 16
      saved_data := none }
    0 (List.range 64) rfl rfl (by decide) rfl (by decide) (by decide)
  exact ⟨hmain.1, hmain.2.1⟩

end WlrBuffer

namespace WlrBuffer

theorem cbRun_released (es : List CBEvent) : ∀ b : ClientBuffer,
    b.resource_released = true →
    (cbRun b es).2 = 0 ∧ (cbRun b es).1.resource_released = true := by
  induction es with
  | nil => intro b hb; exact ⟨rfl, hb⟩
  | cons e es ih =>
    intro b hb
    cases e with
    | releaseSignal =>
      have hstep : cbStep b CBEvent.releaseSignal = (b, 0) := by
        unfold cbStep client_buffer_handle_release
        rw [if_neg (by simp [hb])]
      simp only [cbRun, hstep]
      exact ⟨by simp [(ih b hb).1], (ih b hb).2⟩
    | resourceDestroy =>
      have hstep : cbStep b CBEvent.resourceDestroy =
          ({ b with resource := none }, 0) := rfl
      simp only [cbRun, hstep]
      have := ih { b with resource := none } hb
      exact ⟨by simp [this.1], this.2⟩

theorem cbLifetime_le_one (es : List CBEvent) : ∀ b : ClientBuffer,
    cbLifetimeSends b es ≤ 1 := by
  induction es with
  | nil =>
    intro b
    unfold cbLifetimeSends cbRun client_buffer_destroy_sends
    split <;> simp
  | cons e es ih =>
    intro b
    unfold cbLifetimeSends
    cases e with
    | releaseSignal =>
      by_cases hc : b.resource_released = false ∧ b.resource.isSome
      · have hstep : cbStep b CBEvent.releaseSignal =
            ({ b with resource_released := true }, 1) := by
          unfold cbStep client_buffer_handle_release
          rw [if_pos hc]
        have haux := cbRun_released es { b with resource_released := true } rfl
        have hdz : client_buffer_destroy_sends
            (cbRun { b with resource_released := true } es).1 = 0 := by
          unfold client_buffer_destroy_sends
          rw [if_neg (by simp [haux.2])]
        simp only [cbRun, hstep]
        rw [haux.1, hdz]
      · have hstep : cbStep b CBEvent.releaseSignal = (b, 0) := by
          unfold cbStep client_buffer_handle_release
          rw [if_neg hc]
        simp only [cbRun, hstep]
        have := ih b
        unfold cbLifetimeSends at this
        simpa using this
    | resourceDestroy =>
      have hstep : cbStep b CBEvent.resourceDestroy =
          ({ b with resource := none }, 0) := rfl
      simp only [cbRun, hstep]
      have := ih { b with resource := none }
      unfold cbLifetimeSends at this
      simpa using this

/-- C7 counterexample: a shm client buffer whose resource stays alive
across two release signals (two lock and unlock cycles) sends the
release acknowledgement twice to the same resource, refuting at most
once per resource lifetime. -/
theorem C7_shm_counterexample :
    (shmRun { resource := some () }
      [CBEvent.releaseSignal, CBEvent.releaseSignal]).2 = 2 ∧
    ¬ (shmRun { resource := some () }
      [CBEvent.releaseSignal, CBEvent.releaseSignal]).2 ≤ 1 := by
  decide

/-- C7 (amended): a wlr_client_buffer (client_buffer_impl) sends the
release acknowledgement at most once over its whole lifetime, however
its release events, resource destruction and final destroy interleave,
and re-acknowledging an already released resource is a no-op; the shm
client buffer, by contrast, sends one acknowledgement per release
event while its resource is alive. -/
theorem C7_release_ack_at_most_once :
    (∀ b : ClientBuffer, ∀ es : List CBEvent, cbLifetimeSends b es ≤ 1) ∧
    (∀ b : ClientBuffer, b.resource_released = true →
      client_buffer_handle_release b = (b, 0)) ∧
    (∀ k : Nat,
      (shmRun { resource := some () }
        (List.replicate k CBEvent.releaseSignal)).2 = k) := by
  refine ⟨fun b es => cbLifetime_le_one es b, ?_, ?_⟩
  · intro b hb
    unfold client_buffer_handle_release
    rw [if_neg (by simp [hb])]
  · intro k
    induction k with
    | zero => rfl
    | succ k ih =>
      rw [List.replicate_succ]
      simp only [shmRun]
      rw [ih]
      simp [shm_client_buffer_handle_release]
      omega

/-- C7 witness: a release handler invocation on an already released
resource changes nothing and sends nothing. -/
theorem C7_release_ack_at_most_once_witness :
    client_buffer_handle_release
      { resource := some (), resource_released := true } =
      ({ resource := some (), resource_released := true }, 0) :=
  C7_release_ack_at_most_once.2.1
    { resource := some (), resource_released := true } rfl

theorem uploadDamage_first_fail (writeOk : Rect → Bool) :
    ∀ rects : List Rect, ∀ i : Nat, ∀ hi : i < rects.length,
    writeOk (rects.get ⟨i, hi⟩) = false →
    (∀ x ∈ rects.take i, writeOk x = true) →
    uploadDamage writeOk rects = (false, rects.take i) := by
  intro rects
  induction rects with
  | nil => intro i hi; simp at hi
  | cons r rs ih =>
    intro i hi hfail hok
    cases i with
    | zero =>
      simp only [List.get] at hfail
      unfold uploadDamage
      rw [if_neg (by simp [hfail])]
      simp
    | succ j =>
      have hr : writeOk r = true := hok r (by simp)
      have hj : j < rs.length := by simpa using hi
      have hrec := ih j hj (by simpa using hfail)
        (fun x hx => hok x (by simp [hx]))
      unfold uploadDamage
      rw [if_pos hr, hrec]
      simp

/-- C8: in wlr_client_buffer_apply_damage, when the guard checks pass
and the upload of the rectangle at index i is the first to fail, the
whole update aborts (NULL result), the rectangles before i stay
uploaded (no rollback) and no rectangle after i is uploaded: the
uploaded list is exactly the prefix before the failing index. -/
theorem C8_damage_partial_failure (c : DamageCtx) (writeOk : Rect → Bool)
    (rects : List Rect) (i : Nat)
    (hc1 : ¬ 1 < c.n_locks) (hc2 : c.both_shm = true)
    (hc3 : c.new_fmt = c.old_fmt)
    (hc4 : c.width = c.tex_width) (hc5 : c.height = c.tex_height)
    (hi : i < rects.length)
    (hfail : writeOk (rects.get ⟨i, hi⟩) = false)
    (hok : ∀ x ∈ rects.take i, writeOk x = true) :
    wlr_client_buffer_apply_damage c writeOk rects = (none, rects.take i) := by
  unfold wlr_client_buffer_apply_damage
  rw [if_neg hc1, if_neg (by simp [hc2]), if_neg (by simp [hc3]),
    if_neg (by simp [hc4, hc5]),
    uploadDamage_first_fail writeOk rects i hi hfail hok]
  simp

/-- C8 witness: three damage rectangles of which the second fails to
upload leave exactly the first uploaded and the call reporting
failure. -/
theorem C8_damage_partial_failure_witness :
    wlr_client_buffer_apply_damage
      { n_locks := 1
        both_shm := true
        new_fmt := 5
        old_fmt := 5
        width := 4
        height := 4
        tex_width := 4
        tex_height := 4 }
      (fun r => decide (r.x1 = 0))
      [⟨0, 0, 1, 1⟩, ⟨1, 0, 2, 1⟩, ⟨0, 1, 1, 2⟩] =
      (none, [⟨0, 0, 1, 1⟩]) :=
  C8_damage_partial_failure _ _ _ 1 (by decide) rfl rfl rfl rfl
    (by decide) (by decide) (by decide)

end WlrBuffer

namespace Gles2

/-- C5: importing the same DMA-BUF backed buffer a second time while
the first import is still in the registry returns the identical
texture object, leaves the registry unchanged, increases the buffer
lock count by exactly 1, and creates no second EGL image (one
eglCreateImage in the first call, none in the second, next_image
unchanged). -/
theorem C5_dmabuf_import_reuse (r : GRenderer) (buf : WlrBuffer.Buffer)
    (bid W H : Nat) (external_only : Bool)
    (hnone : r.textures.find? (fun t => t.buffer == some bid) = none) :
    ∃ t1 : GTexture, ∃ r1 : GRenderer, ∃ calls1 calls2 : List GPUCall,
      gles2_texture_from_dmabuf_buffer r buf bid W H external_only
          true true =
        ((some t1, r1, WlrBuffer.wlr_buffer_lock buf), calls1) ∧
      gles2_texture_from_dmabuf_buffer r1 (WlrBuffer.wlr_buffer_lock buf)
          bid W H external_only true true =
        ((some t1, r1,
          WlrBuffer.wlr_buffer_lock (WlrBuffer.wlr_buffer_lock buf)),
          calls2) ∧
      t1.buffer = some bid ∧
      r1.textures = t1 :: r.textures ∧
      r1.next_image = r.next_image + 1 ∧
      calls1.count GPUCall.eglCreateImage = 1 ∧
      calls2.count GPUCall.eglCreateImage = 0 ∧
      (WlrBuffer.wlr_buffer_lock (WlrBuffer.wlr_buffer_lock buf)).n_locks =
        (WlrBuffer.wlr_buffer_lock buf).n_locks + 1 := by
  refine ⟨{ width := W
            height := H
            tex := r.next_tex
            target := if external_only = true then TexTarget.externalOES
              else TexTarget.tex2D
            image := some r.next_image
            drm_format := DRM_FORMAT_INVALID
            has_alpha := true
            buffer := some bid },
    { textures := { width := W
                    height := H
                    tex := r.next_tex
                    target := if external_only = true then
                        TexTarget.externalOES else TexTarget.tex2D
                    image := some r.next_image
                    drm_format := DRM_FORMAT_INVALID
                    has_alpha := true
                    buffer := some bid } :: r.textures
      next_image := r.next_image + 1
      next_tex := r.next_tex + 1 },
    [GPUCall.saveContext, GPUCall.makeCurrent, GPUCall.eglCreateImage,
     GPUCall.genTextures, GPUCall.bindTexture, GPUCall.texParameteri,
     GPUCall.texParameteri, GPUCall.eglImageTargetTexture2D,
     GPUCall.bindTexture, GPUCall.restoreContext],
    (gles2_texture_invalidate
      { width := W
        height := H
        tex := r.next_tex
        target := if external_only = true then TexTarget.externalOES
          else TexTarget.tex2D
        image := some r.next_image
        drm_format := DRM_FORMAT_INVALID
        has_alpha := true
        buffer := some bid }).2,
    ?_, ?_, rfl, rfl, rfl, by decide, ?_, rfl⟩
  · unfold gles2_texture_from_dmabuf_buffer gles2_texture_from_dmabuf
    rw [hnone]
    rfl
  · have hfind :
        (({ width := W
            height := H
            tex := r.next_tex
            target := if external_only = true then TexTarget.externalOES
              else TexTarget.tex2D
            image := some r.next_image
            drm_format := DRM_FORMAT_INVALID
            has_alpha := true
            buffer := some bid } : GTexture) :: r.textures).find?
          (fun t => t.buffer == some bid) =
        some { width := W
               height := H
               tex := r.next_tex
               target := if external_only = true then TexTarget.externalOES
                 else TexTarget.tex2D
               image := some r.next_image
               drm_format := DRM_FORMAT_INVALID
               has_alpha := true
               buffer := some bid } := by
      rw [List.find?_cons_of_pos]
      simp
    unfold gles2_texture_from_dmabuf_buffer
    rw [hfind]
    cases external_only <;> rfl
  · cases external_only <;> rfl

end Gles2

namespace Gles2

/-- C5 witness: on an empty registry, importing dmabuf buffer 7 twice
returns the same texture, adds one EGL image, and locks the buffer
once more. -/
theorem C5_dmabuf_import_reuse_witness :
    ∃ t1 : GTexture, ∃ r1 : GRenderer, ∃ calls1 calls2 : List GPUCall,
      gles2_texture_from_dmabuf_buffer
          { textures := [], next_image := 0, next_tex := 0 }
          (WlrBuffer.wlr_buffer_init 4 4) 7 4 4 false true true =
        ((some t1, r1,
          WlrBuffer.wlr_buffer_lock (WlrBuffer.wlr_buffer_init 4 4)),
          calls1) ∧
      gles2_texture_from_dmabuf_buffer r1
          (WlrBuffer.wlr_buffer_lock (WlrBuffer.wlr_buffer_init 4 4))
          7 4 4 false true true =
        ((some t1, r1,
          WlrBuffer.wlr_buffer_lock
            (WlrBuffer.wlr_buffer_lock (WlrBuffer.wlr_buffer_init 4 4))),
          calls2) ∧
      t1.buffer = some 7 ∧
      r1.textures = t1 ::
        ({ textures := [], next_image := 0, next_tex := 0 }
          : GRenderer).textures ∧
      r1.next_image =
        ({ textures := [], next_image := 0, next_tex := 0 }
          : GRenderer).next_image + 1 ∧
      calls1.count GPUCall.eglCreateImage = 1 ∧
      calls2.count GPUCall.eglCreateImage = 0 ∧
      (WlrBuffer.wlr_buffer_lock
        (WlrBuffer.wlr_buffer_lock (WlrBuffer.wlr_buffer_init 4 4))).n_locks =
        (WlrBuffer.wlr_buffer_lock (WlrBuffer.wlr_buffer_init 4 4)).n_locks
          + 1 :=
  C5_dmabuf_import_reuse { textures := [], next_image := 0, next_tex := 0 }
    (WlrBuffer.wlr_buffer_init 4 4) 7 4 4 false (by decide)

/-- C6 counterexample: with a 32 bit per pixel format, check_stride
accepts stride 0 both at width 0 and at width 2 ^ 30, where the
uint32_t product width times bytes per pixel wraps to 0; in the
latter case gles2_texture_write_pixels with stride 0 proceeds to
issue GL calls, so the code does not reject stride 0 unconditionally
before GPU calls even for positive widths. -/
theorem C6_stride_zero_counterexample :
    check_stride { bpp := 32 } 0 0 = true ∧
    check_stride { bpp := 32 } 0 (2 ^ 30) = true ∧
    gles2_texture_write_pixels
      (fun _ => some { drm_format := 875713089
                       gl_format := 0
                       gl_type := 0
                       has_alpha := true })
      (fun _ => some { bpp := 32 })
      { width := 4
        height := 4
        tex := 1
        target := TexTarget.tex2D
        image := none
        drm_format := 875713089
        has_alpha := true
        buffer := none } 0 (2 ^ 30) 4 0 0 0 0 =
      some (true,
        [GPUCall.saveContext, GPUCall.makeCurrent, GPUCall.bindTexture,
         GPUCall.pixelStorei, GPUCall.pixelStorei, GPUCall.pixelStorei,
         GPUCall.texSubImage2D, GPUCall.pixelStorei, GPUCall.pixelStorei,
         GPUCall.pixelStorei, GPUCall.bindTexture, GPUCall.restoreContext]) ∧
    gles2_texture_write_pixels
      (fun _ => some { drm_format := 875713089
                       gl_format := 0
                       gl_type := 0
                       has_alpha := true })
      (fun _ => some { bpp := 32 })
      { width := 4
        height := 4
        tex := 1
        target := TexTarget.tex2D
        image := none
        drm_format := 875713089
        has_alpha := true
        buffer := none } 0 0 4 0 0 0 0 =
      some (true,
        [GPUCall.saveContext, GPUCall.makeCurrent, GPUCall.bindTexture,
         GPUCall.pixelStorei, GPUCall.pixelStorei, GPUCall.pixelStorei,
         GPUCall.texSubImage2D, GPUCall.pixelStorei, GPUCall.pixelStorei,
         GPUCall.pixelStorei, GPUCall.bindTexture, GPUCall.restoreContext]) :=
  ⟨rfl, by decide, by decide, rfl⟩

/-- C6 (amended): stride validation rejects a zero stride whenever the
width is positive (with at least 8 bits per pixel) and the uint32_t
product width times bytes per pixel does not overflow, rejects any
stride below that wrapped product, rejects any stride that is not a
multiple of the bytes per pixel, and a rejected stride makes both
gles2_texture_write_pixels and gles2_texture_from_pixels fail with no
GPU call issued; for width 0, and likewise when the product wraps to
a value at most the stride (such as width 2 ^ 30 at 32 bits per
pixel), a zero stride is accepted. -/
theorem C6_stride_validation (fmt : PixelFormatInfo) (stride width : Nat) :
    (8 ≤ fmt.bpp → 0 < width → width * (fmt.bpp / 8) < 2 ^ 32 →
      check_stride fmt 0 width = false) ∧
    (stride < (width * (fmt.bpp / 8)) % 2 ^ 32 →
      check_stride fmt stride width = false) ∧
    (stride % (fmt.bpp / 8) ≠ 0 → check_stride fmt stride width = false) ∧
    (∀ glFmt : Nat → Option Gles2PixelFormat,
      ∀ drmFmt : Nat → Option PixelFormatInfo,
      ∀ t : GTexture, ∀ g : Gles2PixelFormat,
      t.target = TexTarget.tex2D → t.image = none →
      glFmt t.drm_format = some g → drmFmt t.drm_format = some fmt →
      check_stride fmt stride width = false →
      ∀ hgt sx sy dx dy : Nat,
        gles2_texture_write_pixels glFmt drmFmt t stride width hgt
          sx sy dx dy = some (false, [])) ∧
    (∀ glFmt : Nat → Option Gles2PixelFormat,
      ∀ drmFmt : Nat → Option PixelFormatInfo,
      ∀ df : Nat, ∀ g : Gles2PixelFormat, ∀ r : GRenderer,
      ∀ allocOk : Bool, ∀ hgt : Nat,
      glFmt df = some g → drmFmt df = some fmt →
      check_stride fmt stride width = false →
      gles2_texture_from_pixels glFmt drmFmt r df stride width hgt
        allocOk = some (none, [])) := by
  refine ⟨?_, ?_, ?_, ?_, ?_⟩
  · intro hbpp hw hnowrap
    unfold check_stride
    rw [if_neg (by simp)]
    rw [if_pos]
    rw [Nat.mod_eq_of_lt hnowrap]
    have : 1 ≤ fmt.bpp / 8 := by omega
    exact Nat.mul_pos hw this
  · intro hlt
    unfold check_stride
    by_cases hmod : stride % (fmt.bpp / 8) ≠ 0
    · rw [if_pos hmod]
    · rw [if_neg hmod, if_pos hlt]
  · intro hmod
    unfold check_stride
    rw [if_pos hmod]
  · intro glFmt drmFmt t g ht hi hg hf hcheck hgt sx sy dx dy
    unfold gles2_texture_write_pixels
    rw [if_neg (by simp [ht, hi]), hg]
    simp only [Option.some_bind]
    rw [hf]
    simp only [Option.some_bind]
    rw [if_pos hcheck]
  · intro glFmt drmFmt df g r allocOk hgt hg hf hcheck
    unfold gles2_texture_from_pixels
    rw [hg]
    simp only []
    rw [hf]
    simp only [Option.some_bind]
    rw [if_pos hcheck]

/-- C6 witness: a 32 bit per pixel format with width 4 rejects stride
0. -/
theorem C6_stride_validation_witness :
    check_stride { bpp := 32 } 0 4 = false :=
  (C6_stride_validation { bpp := 32 } 0 4).1 (by decide) (by decide)
    (by decide)

/-- C9: gles2_texture_write_pixels on a texture that is not a mutable
GL_TEXTURE_2D (an external-only target, or an imported native texture
carrying an EGLImage) fails before doing anything: it returns false
and issues no GPU call, so no pixel upload occurs. -/
theorem C9_write_pixels_immutable_rejected
    (glFmt : Nat → Option Gles2PixelFormat)
    (drmFmt : Nat → Option PixelFormatInfo) (t : GTexture)
    (h : t.target ≠ TexTarget.tex2D ∨ t.image ≠ none) :
    ∀ stride width hgt sx sy dx dy : Nat,
      gles2_texture_write_pixels glFmt drmFmt t stride width hgt
        sx sy dx dy = some (false, []) := by
  intro stride width hgt sx sy dx dy
  unfold gles2_texture_write_pixels
  rw [if_pos h]

/-- C9 witness: writing pixels to a concrete imported external-only
texture fails with no GPU call. -/
theorem C9_write_pixels_immutable_rejected_witness :
    gles2_texture_write_pixels (fun _ => none) (fun _ => none)
      { width := 4
        height := 4
        tex := 1
        target := TexTarget.externalOES
        image := some 0
        drm_format := 0
        has_alpha := true
        buffer := none }
      16 4 4 0 0 0 0 = some (false, []) :=
  C9_write_pixels_immutable_rejected (fun _ => none) (fun _ => none)
    _ (Or.inl (by decide)) 16 4 4 0 0 0 0

end Gles2
